import Mathlib

/-!
Verification of the LanceDB python excerpt: the pydantic-to-Arrow schema
translation (`src/python/lancedb/pydantic.py`) and the URI helpers
(`src/python/lancedb/util.py`), as a shallow embedding in Lean 4.
-/

set_option autoImplicit false

/-! ## Arrow data types

Shallow embedding of the pyarrow `DataType` values produced by the
translation: the five scalar types, `pa.list_`, a fixed-size list
(`pa.list_(value_type, dim)`), and `pa.struct(fields)`.  A pyarrow field
is a `(name, type, nullable)` triple; `ArrowFieldList` is its own list
type so that all recursion stays structural.
-/

mutual

inductive ArrowType where
  | int64 : ArrowType
  | float32 : ArrowType
  | float64 : ArrowType
  | utf8 : ArrowType
  | bool : ArrowType
  | binary : ArrowType
  | list : ArrowType → ArrowType
  | fixedSizeList : ArrowType → Nat → ArrowType
  | struct : ArrowFieldList → ArrowType

inductive ArrowFieldList where
  | nil : ArrowFieldList
  | cons : String → ArrowType → Bool → ArrowFieldList → ArrowFieldList

end

deriving instance DecidableEq for ArrowType, ArrowFieldList

/-! ## Python-level type annotations

A `PyType` is the shape of the value stored in a pydantic
`FieldInfo.annotation`, as the two translation functions inspect it:

* `int`, `float`, `str`, `bool`, `bytes`: the five builtin scalar classes;
* `noneType`: the class `type(None)`;
* `genericList e`: a parameterized list alias (`typing.List[e]` or
  `list[e]`), i.e. a generic alias whose `__origin__` is `list` and whose
  `__args__` is `(e,)`;
* `genericUnion args`: a `typing.Union[...]` alias, i.e. a generic alias
  whose `__origin__` is `Union`; `args` is its ordered `__args__` tuple
  (python `typing` preserves first-occurrence order after flattening and
  deduplication, so `Union[None, int]` has args `(NoneType, int)`);
* `modelClass name fields alsoVector`: a class subclassing
  `pydantic.BaseModel`, with `fields` its `model_fields` in declaration
  order; `alsoVector` is `some (t, d)` when the class additionally
  subclasses `FixedSizeListMixin` (both `issubclass` checks can hold at
  once, and the source tests `BaseModel` first);
* `vectorClass name t d`: a class subclassing `FixedSizeListMixin` but not
  `BaseModel`, carrying `value_arrow_type () = t` and `dim () = d`;
* `plainClass name`: any other class;
* `other name`: anything else (not a class, not a generic alias).
-/

mutual

inductive PyType where
  | int : PyType
  | float : PyType
  | str : PyType
  | bool : PyType
  | bytes : PyType
  | noneType : PyType
  | genericList : PyType → PyType
  | genericUnion : PyTypeList → PyType
  | modelClass : String → ModelFields → Option (ArrowType × Nat) → PyType
  | vectorClass : String → ArrowType → Nat → PyType
  | plainClass : String → PyType
  | other : String → PyType

inductive PyTypeList where
  | nil : PyTypeList
  | cons : PyType → PyTypeList → PyTypeList

inductive ModelFields where
  | nil : ModelFields
  | cons : String → PyType → ModelFields → ModelFields

end

deriving instance DecidableEq for PyType, PyTypeList, ModelFields

/-- Test whether an annotation is the class `type(None)`; embeds the
python comparison `args[1] == type(None)`. -/
def PyType.isNoneType : PyType → Bool
  | .noneType => true
  | _ => false

/-- The error raised by `_py_type_to_arrow_type`: a `TypeError` whose
message is `f"Converting Pydantic type to Arrow Type: unsupported type
\x7bpy_type\x7d"` — it names the offending annotation, which the
embedding keeps as the payload. -/
structure UnsupportedTypeError where
  offending : PyType
deriving DecidableEq

/-- Embeds `_py_type_to_arrow_type` (pydantic.py lines 100-120): maps the
five builtin scalar classes and raises on everything else. -/
def _py_type_to_arrow_type : PyType → Except UnsupportedTypeError ArrowType
  | .int => .ok .int64
  | .float => .ok .float64
  | .str => .ok .utf8
  | .bool => .ok .bool
  | .bytes => .ok .binary
  | t => .error ⟨t⟩

/-- Embeds `is_nullable` (pydantic.py lines 153-161): true only for a
`typing` union generic alias with exactly two args whose second arg is
`type(None)`. -/
def is_nullable : PyType → Bool
  | .genericUnion (.cons _ (.cons b .nil)) => b.isNoneType
  | _ => false

mutual

/-- Embeds `_pydantic_to_arrow_type` (pydantic.py lines 130-150), applied
to `field.annotation`.  Generic aliases: `list` origin maps the element
through the scalar function; a two-armed union ending in `type(None)`
unwraps to the scalar mapping of the first arm, and any other union falls
through to the final scalar call.  Classes: a `BaseModel` subclass maps to
a struct of its recursively translated fields (checked before the
`FixedSizeListMixin` test), a mixin subclass maps to a fixed-size list.
Everything else falls through to `_py_type_to_arrow_type`. -/
def _pydantic_to_arrow_type : PyType → Except UnsupportedTypeError ArrowType
  | .genericList elem =>
    match _py_type_to_arrow_type elem with
    | .ok t => .ok (.list t)
    | .error e => .error e
  | .genericUnion args =>
    match args with
    | .cons a (.cons b .nil) =>
      if b.isNoneType then _py_type_to_arrow_type a
      else _py_type_to_arrow_type (.genericUnion (.cons a (.cons b .nil)))
    | _ => _py_type_to_arrow_type (.genericUnion args)
  | .modelClass _ fields _ =>
    match _pydantic_model_to_fields fields with
    | .ok fs => .ok (.struct fs)
    | .error e => .error e
  | .vectorClass _ t d => .ok (.fixedSizeList t d)
  | t => _py_type_to_arrow_type t

/-- Embeds `_pydantic_model_to_fields` (pydantic.py lines 123-127): one
`pa.field(name, _pydantic_to_arrow_type(f), is_nullable(f))` per declared
field, in declaration order, with the per-field construction
(`_pydantic_to_field`) inlined so the recursion is structural. -/
def _pydantic_model_to_fields : ModelFields → Except UnsupportedTypeError ArrowFieldList
  | .nil => .ok .nil
  | .cons n t rest =>
    match _pydantic_to_arrow_type t with
    | .error e => .error e
    | .ok dt =>
      match _pydantic_model_to_fields rest with
      | .error e => .error e
      | .ok fs => .ok (.cons n dt (is_nullable t) fs)

end

/-- Embeds `_pydantic_to_field` (pydantic.py lines 164-167). -/
def _pydantic_to_field (n : String) (t : PyType) :
    Except UnsupportedTypeError (String × ArrowType × Bool) :=
  match _pydantic_to_arrow_type t with
  | .ok dt => .ok (n, dt, is_nullable t)
  | .error e => .error e

/-- Embeds `pydantic_to_schema` (pydantic.py lines 170-212): the schema is
`pa.schema(_pydantic_model_to_fields(model))`, i.e. exactly the ordered
field list. -/
def pydantic_to_schema (model : ModelFields) :
    Except UnsupportedTypeError ArrowFieldList :=
  _pydantic_model_to_fields model

/-- Shapes that the dispatch of `_pydantic_to_arrow_type` hands directly
to `_py_type_to_arrow_type`: everything except a parameterized list, a
two-armed union ending in none, a model class and a vector-marker class. -/
def fallsToScalar : PyType → Bool
  | .genericList _ => false
  | .modelClass _ _ _ => false
  | .vectorClass _ _ _ => false
  | .genericUnion (.cons _ (.cons b .nil)) => !b.isNoneType
  | .genericUnion _ => true
  | _ => true

/-- Field membership in a model: `fieldMem n t m` holds when `(n, t)` is
one of the declared fields of `m`. -/
def fieldMem (n : String) (t : PyType) : ModelFields → Prop
  | .nil => False
  | .cons n2 t2 rest => (n = n2 ∧ t = t2) ∨ fieldMem n t rest

/-! ## The vector marker (`vector`, pydantic.py lines 41-97) -/

/-- Embeds the class returned by `vector(dim, value_type)`: its two
static methods `dim()` and `value_arrow_type()` return the captured
constructor arguments. -/
structure VectorMarkerClass where
  dim : Nat
  value_arrow_type : ArrowType

/-- Embeds the factory `vector(dim, value_type)`. -/
def vector (dim : Nat) (value_type : ArrowType) : VectorMarkerClass :=
  ⟨dim, value_type⟩

/-- Embeds `vector(dim)` with the default `value_type = pa.float32()`. -/
def vectorF32 (dim : Nat) : VectorMarkerClass :=
  vector dim .float32

/-- The annotation shape of the returned class when used in a model
field: a class subclassing `FixedSizeListMixin` (and not `BaseModel`). -/
def VectorMarkerClass.asPyType (v : VectorMarkerClass) : PyType :=
  .vectorClass "FixedSizeList" v.value_arrow_type v.dim

/-- A python runtime value, as far as the pydantic core validation of the
vector marker inspects it: a float, an int, or anything else (strings,
none, dicts, ...), plus lists of values. -/
inductive PyValue where
  | float : PyValue
  | int : Int → PyValue
  | str : String → PyValue
  | noneVal : PyValue
  | listVal : List PyValue → PyValue
  | otherVal : String → PyValue

/-- Modelled from the spec: the behavior of pydantic-core
`core_schema.float_schema()` (the items validator built in
`__get_pydantic_core_schema__`, pydantic.py line 93), which is not part of
this repository.  Per the spec, instances must be sequences of "numeric
values": a float or an int validates as a float, anything else is
rejected. -/
def floatSchemaAccepts : PyValue → Bool
  | .float => true
  | .int _ => true
  | _ => false

/-- Embeds the core schema built by `__get_pydantic_core_schema__`
(pydantic.py lines 84-95): `core_schema.list_schema(min_length=dim,
max_length=dim, items_schema=core_schema.float_schema())`.  Note the
schema captures only `dim`; the declared `value_type` does not appear.
Validation succeeds iff the value is a list whose length is between
`dim` and `dim` and whose items all pass the float schema. -/
def fixedSizeListValidates (dim : Nat) (v : PyValue) : Bool :=
  match v with
  | .listVal xs =>
    decide (dim ≤ xs.length) && decide (xs.length ≤ dim)
      && xs.all floatSchemaAccepts
  | _ => false

/-- Validation of an instance of the class returned by `vector`: the
closure captures the `dim` argument of the factory. -/
def vectorValidates (m : VectorMarkerClass) (v : PyValue) : Bool :=
  fixedSizeListValidates m.dim v

/-! ## URI helpers (`src/python/lancedb/util.py`) -/

/-- Scheme characters accepted by `urllib.parse`: ASCII letters, digits,
and the three punctuation characters plus, minus, dot. -/
def isSchemeChar (c : Char) : Bool :=
  c.isAlpha || c.isDigit || c == '+' || c == '-' || c == '.'

/-- Split a character list at the first occurrence of `sep`; `none` when
`sep` does not occur.  Embeds python `s.split(sep, 1)` together with the
`sep in s` membership test. -/
def splitOnFirst (sep : Char) : List Char → Option (List Char × List Char)
  | [] => none
  | c :: rest =>
    if c == sep then some ([], rest)
    else
      match splitOnFirst sep rest with
      | some (a, b) => some (c :: a, b)
      | none => none

/-- Embeds `urllib.parse._splitnetloc`: the netloc extends to the first
of `/`, `?`, `#`, and the rest (starting at that delimiter) remains. -/
def splitNetloc (cs : List Char) : List Char × List Char :=
  match cs.findIdx? (fun c => c == '/' || c == '?' || c == '#') with
  | some j => (cs.take j, cs.drop j)
  | none => (cs, [])

/-- The result of `urllib.parse.urlparse`, restricted to the components
the two helpers read. -/
structure SplitResult where
  scheme : String
  netloc : String
  path : String
  query : String
  fragment : String

/-- Modelled from the spec: `urllib.parse.urlparse` (python standard
library, not part of this repository), restricted to scheme, netloc,
path, query and fragment.  A scheme is recognized when a colon occurs at
position `i > 0`, the first character is an ASCII letter and every
character before the colon is a scheme character; it is lowercased.  A
netloc follows a leading `//` and extends to the first `/`, `?` or `#`.
The fragment is split off at the first `#`, then the query at the first
`?`; the path is what remains.  (Params splitting, the IPv6 bracket
check and WHATWG control-character stripping are not modelled.) -/
def urlparse (url : String) : SplitResult :=
  let cs := url.toList
  let schemeSplit :=
    match cs.findIdx? (fun c => c == ':') with
    | some i =>
      if 0 < i
          && (match cs.head? with
              | some c0 => c0.isAlpha
              | none => false)
          && (cs.take i).all isSchemeChar
      then ((cs.take i).map Char.toLower, cs.drop (i + 1))
      else (([] : List Char), cs)
    | none => (([] : List Char), cs)
  let rest1 := schemeSplit.2
  let netlocSplit :=
    match rest1 with
    | '/' :: '/' :: r => splitNetloc r
    | _ => (([] : List Char), rest1)
  let rest2 := netlocSplit.2
  let fragSplit :=
    match splitOnFirst '#' rest2 with
    | some (a, b) => (a, b)
    | none => (rest2, ([] : List Char))
  let querySplit :=
    match splitOnFirst '?' fragSplit.1 with
    | some (a, b) => (a, b)
    | none => (fragSplit.1, ([] : List Char))
  { scheme := String.mk schemeSplit.1
    netloc := String.mk netlocSplit.1
    path := String.mk querySplit.1
    query := String.mk querySplit.2
    fragment := String.mk fragSplit.2 }

/-- Embeds `get_uri_scheme` (util.py lines 17-41). -/
def get_uri_scheme (uri : String) : String :=
  let scheme := (urlparse uri).scheme
  if scheme = "" then "file"
  else if scheme = "s3a" ∨ scheme = "s3n" then "s3"
  else if scheme.length = 1 then "file"
  else scheme

/-- Embeds `get_uri_location` (util.py lines 44-61). -/
def get_uri_location (uri : String) : String :=
  let parsed := urlparse uri
  if parsed.netloc = "" then parsed.path
  else parsed.netloc ++ parsed.path

/-! ## Concrete example model and expected schema

The model of spec section 8 and claim C4:
`{id: int, s: Optional[str], vec: List[float], inner: {a: str, b: Optional[float]}}`. -/

/-- The inner model `{a: str, b: Optional[float]}`. -/
def innerModel : ModelFields :=
  .cons "a" .str
    (.cons "b" (.genericUnion (.cons .float (.cons .noneType .nil))) .nil)

/-- The model `{id: int, s: Optional[str], vec: List[float], inner: innerModel}`. -/
def exampleModel : ModelFields :=
  .cons "id" .int
    (.cons "s" (.genericUnion (.cons .str (.cons .noneType .nil)))
      (.cons "vec" (.genericList .float)
        (.cons "inner" (.modelClass "InnerModel" innerModel none) .nil)))

/-- The expected translation: `[id:Int64 not-null, s:Utf8 nullable,
vec:List(Float64) not-null, inner:Struct([a:Utf8 not-null, b:Float64
nullable]) not-null]`. -/
def exampleSchema : ArrowFieldList :=
  .cons "id" .int64 false
    (.cons "s" .utf8 true
      (.cons "vec" (.list .float64) false
        (.cons "inner"
          (.struct (.cons "a" .utf8 false (.cons "b" .float64 true .nil)))
          false .nil)))

/-- Claim C2 restated in the words of the spec, for comparison with the
code: the declared type "is exactly an optional-of-one-other-type (a
two-armed union where one arm is the null/none type)". -/
def specTwoArmNullUnion (t : PyType) : Prop :=
  ∃ a b, t = .genericUnion (.cons a (.cons b .nil))
    ∧ (a = .noneType ∨ b = .noneType)

/-! ## Theorems -/

/-- Claim C3: `_py_type_to_arrow_type` maps exactly five primitive
annotations — int to Int64, float to Float64, str to Utf8, bool to Bool,
bytes to Binary — with no implicit coercion, and for any other input it
fails with an `UnsupportedTypeError` naming the offending type. -/
theorem c3_scalar_type_map :
    _py_type_to_arrow_type .int = .ok .int64
    ∧ _py_type_to_arrow_type .float = .ok .float64
    ∧ _py_type_to_arrow_type .str = .ok .utf8
    ∧ _py_type_to_arrow_type .bool = .ok .bool
    ∧ _py_type_to_arrow_type .bytes = .ok .binary
    ∧ ∀ t : PyType,
        ¬(t = .int ∨ t = .float ∨ t = .str ∨ t = .bool ∨ t = .bytes) →
        _py_type_to_arrow_type t = .error ⟨t⟩ := by
  refine ⟨rfl, rfl, rfl, rfl, rfl, ?_⟩
  intro t h
  cases t <;> try rfl
  all_goals simp at h

/-- Witness for C3: the none type is not one of the five scalars, and the
scalar mapping rejects it, naming it in the error. -/
theorem c3_scalar_type_map_witness :
    _py_type_to_arrow_type .noneType = .error ⟨.noneType⟩ :=
  c3_scalar_type_map.2.2.2.2.2 .noneType (by simp)

/-- Counterexample for C2 as stated: `Union[None, int]` (args in python
order `(NoneType, int)`) is a two-armed union where one arm is the none
type, yet `is_nullable` returns false, because the source only tests
`args[1] == type(None)`. -/
theorem c2_nullable_counterexample :
    specTwoArmNullUnion (.genericUnion (.cons .noneType (.cons .int .nil)))
    ∧ is_nullable (.genericUnion (.cons .noneType (.cons .int .nil))) = false :=
  ⟨⟨.noneType, .int, rfl, Or.inl rfl⟩, rfl⟩

/-- Claim C2 (amended): `is_nullable` returns true iff the declared type
is a two-armed union whose second arm is the null/none type. -/
theorem c2_is_nullable_amended :
    ∀ t : PyType, is_nullable t = true ↔
      ∃ a, t = PyType.genericUnion (.cons a (.cons .noneType .nil)) := by
  intro t
  unfold is_nullable
  split
  · rename_i a b
    cases b <;> simp [PyType.isNoneType]
  · rename_i hne
    simp only [Bool.false_eq_true, false_iff]
    rintro ⟨a, rfl⟩
    exact hne a .noneType rfl

/-- Witness for the amended C2: `Optional[int]`, i.e.
`Union[int, None]`, is nullable. -/
theorem c2_is_nullable_amended_witness :
    is_nullable (.genericUnion (.cons .int (.cons .noneType .nil))) = true :=
  (c2_is_nullable_amended _).mpr ⟨.int, rfl⟩

/-- Claim C1: `_pydantic_to_arrow_type` dispatches in precedence order:
a parameterized list maps the element through the scalar function only; a
two-armed union ending in none unwraps to the scalar mapping of the first
arm; a model class maps recursively to a struct of its fields, and does
so even when the class also carries the vector marker (rule 3 precedes
rule 4); a vector-marker class maps to a fixed-size list of its declared
element type and dimension; every other shape is passed to
`_py_type_to_arrow_type`. -/
theorem c1_field_type_dispatch :
    (∀ e : PyType, _pydantic_to_arrow_type (.genericList e)
        = (_py_type_to_arrow_type e).map ArrowType.list)
    ∧ (∀ a : PyType, _pydantic_to_arrow_type
          (.genericUnion (.cons a (.cons .noneType .nil)))
        = _py_type_to_arrow_type a)
    ∧ (∀ (n : String) (fs : ModelFields) (v : Option (ArrowType × Nat)),
        _pydantic_to_arrow_type (.modelClass n fs v)
        = (_pydantic_model_to_fields fs).map ArrowType.struct)
    ∧ (∀ (n : String) (t : ArrowType) (d : Nat),
        _pydantic_to_arrow_type (.vectorClass n t d)
          = .ok (.fixedSizeList t d))
    ∧ (∀ t : PyType, fallsToScalar t = true →
        _pydantic_to_arrow_type t = _py_type_to_arrow_type t) := by
  refine ⟨?_, fun a => rfl, ?_, fun n t d => rfl, ?_⟩
  · intro e
    cases h : _py_type_to_arrow_type e <;>
      simp [_pydantic_to_arrow_type, h, Except.map]
  · intro n fs v
    cases h : _pydantic_model_to_fields fs <;>
      simp [_pydantic_to_arrow_type, h, Except.map]
  · intro t h
    cases t <;> try rfl
    case genericList e => simp [fallsToScalar] at h
    case modelClass n fs v => simp [fallsToScalar] at h
    case vectorClass n t d => simp [fallsToScalar] at h
    case genericUnion args =>
      cases args with
      | nil => rfl
      | cons a rest =>
        cases rest with
        | nil => rfl
        | cons b rest2 =>
          cases rest2 with
          | nil =>
            cases b <;>
              first
                | rfl
                | simp [fallsToScalar, PyType.isNoneType] at h
          | cons c rest3 => rfl

/-- Witness for C1: a two-armed union not ending in none falls through to
the scalar mapping and is rejected there. -/
theorem c1_field_type_dispatch_witness :
    _pydantic_to_arrow_type (.genericUnion (.cons .str (.cons .int .nil)))
      = .error ⟨.genericUnion (.cons .str (.cons .int .nil))⟩ :=
  (c1_field_type_dispatch.2.2.2.2
    (.genericUnion (.cons .str (.cons .int .nil))) rfl).trans rfl

/-- Claim C4: `_pydantic_model_to_fields` emits one field descriptor
`(name, _pydantic_to_arrow_type(field), is_nullable(field))` per declared
field, in declaration order; `pydantic_to_schema` is equivalent to it;
and the example model `{id: int, s: Optional[str], vec: List[float],
inner: {a: str, b: Optional[float]}}` translates to the expected ordered
field list. -/
theorem c4_model_to_fields :
    (∀ m : ModelFields, pydantic_to_schema m = _pydantic_model_to_fields m)
    ∧ _pydantic_model_to_fields .nil = .ok .nil
    ∧ (∀ (n : String) (t : PyType) (rest : ModelFields),
        _pydantic_model_to_fields (.cons n t rest)
          = match _pydantic_to_field n t, _pydantic_model_to_fields rest with
            | .error e, _ => .error e
            | .ok _, .error e => .error e
            | .ok f, .ok fs => .ok (.cons f.1 f.2.1 f.2.2 fs))
    ∧ pydantic_to_schema exampleModel = .ok exampleSchema := by
  refine ⟨fun m => rfl, rfl, ?_, rfl⟩
  intro n t rest
  cases h1 : _pydantic_to_arrow_type t <;>
    cases h2 : _pydantic_model_to_fields rest <;>
      simp [_pydantic_model_to_fields, _pydantic_to_field, h1, h2]

/-- Helper for C5: an unmapped field type anywhere in the declared field
list forces the whole translation to an error. -/
theorem fields_error_of_fieldMem :
    ∀ (m : ModelFields) (n : String) (t : PyType) (e : UnsupportedTypeError),
      fieldMem n t m → _pydantic_to_arrow_type t = .error e →
      ∃ e2, _pydantic_model_to_fields m = .error e2
  | .nil, _, _, _, hmem, _ => False.elim hmem
  | .cons n2 t2 rest, n, t, e, hmem, herr => by
    cases h1 : _pydantic_to_arrow_type t2 with
    | error e0 => exact ⟨e0, by simp [_pydantic_model_to_fields, h1]⟩
    | ok dt =>
      cases hmem with
      | inl hpair =>
        rw [hpair.2, h1] at herr
        exact Except.noConfusion herr
      | inr hrest =>
        obtain ⟨e2, he2⟩ := fields_error_of_fieldMem rest n t e hrest herr
        exact ⟨e2, by simp [_pydantic_model_to_fields, h1, he2]⟩

/-- Claim C5: translation has exactly one error kind
(`UnsupportedTypeError`); it is raised immediately at the point of
detection (the first failing field aborts with exactly that error,
whatever follows), and the whole translation aborts with no partial
schema: any model containing a field whose type mapping fails translates
to an error, never to a field list. -/
theorem c5_unsupported_type_error :
    (∀ m : ModelFields,
        (∃ fs, pydantic_to_schema m = .ok fs)
        ∨ (∃ e : UnsupportedTypeError, pydantic_to_schema m = .error e))
    ∧ (∀ (n : String) (t : PyType) (rest : ModelFields)
          (e : UnsupportedTypeError),
        _pydantic_to_arrow_type t = .error e →
        _pydantic_model_to_fields (.cons n t rest) = .error e)
    ∧ (∀ (m : ModelFields) (n : String) (t : PyType)
          (e : UnsupportedTypeError),
        fieldMem n t m → _pydantic_to_arrow_type t = .error e →
        ∃ e2, pydantic_to_schema m = .error e2) := by
  refine ⟨?_, ?_, ?_⟩
  · intro m
    cases h : pydantic_to_schema m with
    | error e => exact Or.inr ⟨e, rfl⟩
    | ok fs => exact Or.inl ⟨fs, rfl⟩
  · intro n t rest e h
    simp [_pydantic_model_to_fields, h]
  · intro m n t e hmem herr
    exact fields_error_of_fieldMem m n t e hmem herr

/-- Witness for C5: a model whose single field has the none-type
annotation translates to an error. -/
theorem c5_unsupported_type_error_witness :
    ∃ e2, pydantic_to_schema (.cons "x" .noneType .nil) = .error e2 :=
  c5_unsupported_type_error.2.2 (.cons "x" .noneType .nil) "x" .noneType
    ⟨.noneType⟩ (Or.inl ⟨rfl, rfl⟩) rfl

set_option maxRecDepth 8000 in
/-- Claim C6: the class built by `vector(dim, value_type)` reports
`dim()` equal to the input dimension and `value_arrow_type()` equal to
the input element type (default float32); a marker with dim 768
translates to `FixedSizeList(Float32, 768)`; validation rejects lists of
767 or 769 floats and accepts a list of exactly 768 floats. -/
theorem c6_vector_marker :
    (∀ (d : Nat) (t : ArrowType),
        (vector d t).dim = d ∧ (vector d t).value_arrow_type = t)
    ∧ (∀ d : Nat, vectorF32 d = vector d .float32)
    ∧ _pydantic_to_arrow_type (vectorF32 768).asPyType
        = .ok (.fixedSizeList .float32 768)
    ∧ vectorValidates (vectorF32 768)
        (.listVal (List.replicate 767 .float)) = false
    ∧ vectorValidates (vectorF32 768)
        (.listVal (List.replicate 769 .float)) = false
    ∧ vectorValidates (vectorF32 768)
        (.listVal (List.replicate 768 .float)) = true := by
  refine ⟨fun d t => ⟨rfl, rfl⟩, fun d => rfl, rfl, ?_, ?_, ?_⟩
  all_goals decide

/-- Claim C7: `get_uri_scheme` returns file when the parsed scheme is
absent, normalizes the legacy aliases s3a and s3n to s3, returns file for
any single-character scheme (drive-letter guard), and otherwise returns
the parsed scheme; with the three concrete examples of the spec. -/
theorem c7_uri_scheme :
    (∀ uri : String, (urlparse uri).scheme = "" →
        get_uri_scheme uri = "file")
    ∧ (∀ uri : String,
        (urlparse uri).scheme = "s3a" ∨ (urlparse uri).scheme = "s3n" →
        get_uri_scheme uri = "s3")
    ∧ (∀ uri : String, (urlparse uri).scheme.length = 1 →
        get_uri_scheme uri = "file")
    ∧ (∀ uri : String, (urlparse uri).scheme ≠ ""
        → (urlparse uri).scheme ≠ "s3a" → (urlparse uri).scheme ≠ "s3n"
        → (urlparse uri).scheme.length ≠ 1 →
        get_uri_scheme uri = (urlparse uri).scheme)
    ∧ get_uri_scheme "s3a://bucket/key" = "s3"
    ∧ get_uri_scheme "/local/path" = "file"
    ∧ get_uri_scheme "C:\\Users\\x" = "file" := by
  refine ⟨?_, ?_, ?_, ?_, by decide, by decide, by decide⟩
  · intro uri h
    simp [get_uri_scheme, h]
  · intro uri h
    rcases h with h | h <;> simp only [get_uri_scheme, h] <;> decide
  · intro uri h
    have h1 : (urlparse uri).scheme ≠ "" := by
      intro e; rw [e] at h; exact absurd h (by decide)
    have h2 : (urlparse uri).scheme ≠ "s3a" := by
      intro e; rw [e] at h; exact absurd h (by decide)
    have h3 : (urlparse uri).scheme ≠ "s3n" := by
      intro e; rw [e] at h; exact absurd h (by decide)
    simp only [get_uri_scheme]
    rw [if_neg h1, if_neg (fun hc => hc.elim h2 h3), if_pos h]
  · intro uri h1 h2 h3 h4
    simp only [get_uri_scheme]
    rw [if_neg h1, if_neg (fun hc => hc.elim h2 h3), if_neg h4]

/-- Witness for C7: a two-character scheme that is not an alias is
returned as parsed. -/
theorem c7_uri_scheme_witness :
    get_uri_scheme "gs://bucket/path" = "gs" := by
  have h := c7_uri_scheme.2.2.2.1 "gs://bucket/path"
    (by decide) (by decide) (by decide) (by decide)
  rw [h]; decide

/-- Claim C8: `get_uri_location` returns the parsed path verbatim when
there is no network-location component, and otherwise the
network-location concatenated with the path with no separator
correction; with the two concrete examples of the spec. -/
theorem c8_uri_location :
    (∀ uri : String, (urlparse uri).netloc = "" →
        get_uri_location uri = (urlparse uri).path)
    ∧ (∀ uri : String, (urlparse uri).netloc ≠ "" →
        get_uri_location uri = (urlparse uri).netloc ++ (urlparse uri).path)
    ∧ get_uri_location "s3://bucket/key/obj" = "bucket/key/obj"
    ∧ get_uri_location "/local/path" = "/local/path" := by
  refine ⟨?_, ?_, by decide, by decide⟩
  · intro uri h
    simp only [get_uri_location]
    rw [if_pos h]
  · intro uri h
    simp only [get_uri_location]
    rw [if_neg h]

/-- Witness for C8: a URI with a host concatenates host and path. -/
theorem c8_uri_location_witness :
    get_uri_location "s3://h/p" = "h/p" := by
  have h := c8_uri_location.2.1 "s3://h/p" (by decide)
  rw [h]; decide

/-- Claim C9: `pydantic_to_schema` is deterministic and idempotent: any
two runs on the unchanged model yield the same field-descriptor
sequence; the result is a function of the model alone. -/
theorem c9_schema_deterministic :
    ∀ (m : ModelFields) (r1 r2 : Except UnsupportedTypeError ArrowFieldList),
      pydantic_to_schema m = r1 → pydantic_to_schema m = r2 → r1 = r2 := by
  intro m r1 r2 h1 h2
  rw [← h1, ← h2]

/-- Witness for C9: two runs on the example model agree. -/
theorem c9_schema_deterministic_witness :
    (Except.ok exampleSchema : Except UnsupportedTypeError ArrowFieldList)
      = .ok exampleSchema :=
  c9_schema_deterministic exampleModel _ _ rfl rfl

/-- Claim C10: validation of a vector-marker instance does not depend on
the declared element value type, and succeeds exactly on lists of
exactly `dim` elements each validating as a float. -/
theorem c10_validation_ignores_value_type :
    (∀ (d : Nat) (t1 t2 : ArrowType) (v : PyValue),
        vectorValidates (vector d t1) v = vectorValidates (vector d t2) v)
    ∧ (∀ (d : Nat) (t : ArrowType) (v : PyValue),
        vectorValidates (vector d t) v = true ↔
          ∃ xs : List PyValue, v = .listVal xs ∧ xs.length = d
            ∧ xs.all floatSchemaAccepts = true) := by
  constructor
  · intro d t1 t2 v; rfl
  · intro d t v
    cases v with
    | listVal xs =>
      simp only [vectorValidates, vector, fixedSizeListValidates,
        Bool.and_eq_true, decide_eq_true_eq, PyValue.listVal.injEq]
      constructor
      · rintro ⟨⟨hle1, hle2⟩, hall⟩
        exact ⟨xs, rfl, Nat.le_antisymm hle2 hle1, hall⟩
      · rintro ⟨ys, rfl, hlen, hall⟩
        exact ⟨⟨by omega, by omega⟩, hall⟩
    | float => simp [vectorValidates, vector, fixedSizeListValidates]
    | int n => simp [vectorValidates, vector, fixedSizeListValidates]
    | str s => simp [vectorValidates, vector, fixedSizeListValidates]
    | noneVal => simp [vectorValidates, vector, fixedSizeListValidates]
    | otherVal s => simp [vectorValidates, vector, fixedSizeListValidates]

/-- Witness for C10: a marker declared with an int64 element type still
accepts a list of floats of the right length. -/
theorem c10_validation_ignores_value_type_witness :
    vectorValidates (vector 2 .int64) (.listVal [.float, .float]) = true :=
  (c10_validation_ignores_value_type.2 2 .int64 _).mpr
    ⟨[.float, .float], rfl, rfl, rfl⟩
